import Mathlib

/-!
Verification development for the ADK agent starter kit.

The definitions below are a shallow embedding of the Python modules
`src/deployment/local.py`, `src/registry.py`, `src/config.py` and
`src/agents/base_agent.py`.  Optional attributes of the loosely typed
event objects are modelled with `Option`; an attribute whose access
raises `AttributeError` is modelled as `none` at an outer `Option`
layer, while an attribute that is present but holds Python `None` is
`some none`.  Python exceptions that the code can raise or catch are
modelled with `Except`.
-/

namespace ADK

/-- One part of an event's content (`google.genai` part object, duck
typed).  `text = none` models an object without a `text` attribute, so
that reading it raises `AttributeError`; `text = some none` models a
`text` attribute holding `None`; `text = some (some s)` a string. -/
structure Part where
  text : Option (Option String)
  deriving Repr, DecidableEq

/-- Content of an event: an ordered list of parts. -/
structure Content where
  parts : List Part
  deriving Repr, DecidableEq

/-- A session event as consumed by `get_session_history`.  `author` is
the author tag (`none` models Python `None`); `content = none` models a
`None` content; `functionCalls` is the list of names returned by
`event.get_function_calls()`; `functionResponses` stands for the list
returned by `event.get_function_responses()` (only its emptiness is
ever inspected). -/
structure Event where
  author : Option String
  content : Option Content
  functionCalls : List String
  functionResponses : List Unit
  deriving Repr, DecidableEq

/-- A `{sender, text}` record of the produced history. -/
structure Record where
  sender : String
  text : String
  deriving Repr, DecidableEq

/-- Sender coalescing of `get_session_history` (local.py lines
131-135): `sender = event.author if event.author else "unknown"`, then
any sender other than `"user"` is replaced by `"agent"`.  The Python
truthiness test makes both `None` and the empty string fall back to
`"unknown"`. -/
def eventSender (e : Event) : String :=
  let s := match e.author with
    | some a => if a = "" then "unknown" else a
    | none => "unknown"
  if s = "user" then s else "agent"

/-- Reading `part.text`: `Except.error ()` models the `AttributeError`
raised when the attribute is missing. -/
def partTextAccess (p : Part) : Except Unit (Option String) :=
  match p.text with
  | none => Except.error ()
  | some t => Except.ok t

/-- Text extraction of `get_session_history` for one event (local.py
lines 137-149), with the `AttributeError` surface made explicit: the
`try` block reads `event.content.parts[0].text`; the handler consults
`event.get_function_calls()` and `event.get_function_responses()`.
The result `Except.ok none` means `text` stayed `None` and the event
is skipped; an `Except.error` would be an uncaught exception (none is
possible: the only modelled raise is the guarded attribute read). -/
def extractTextE (e : Event) : Except Unit (Option String) :=
  match e.content with
  | none => Except.ok none
  | some c =>
    match c.parts with
    | [] => Except.ok none
    | p :: _ =>
      match partTextAccess p with
      | Except.ok t => Except.ok t
      | Except.error _ =>
        match e.functionCalls with
        | n :: _ => Except.ok (some ("[Function Call: " ++ n ++ "]"))
        | [] =>
          match e.functionResponses with
          | _ :: _ => Except.ok (some "[Function Response]")
          | [] => Except.ok none

/-- Pure view of `extractTextE` (the code never lets the exception
escape the per-event block). -/
def extractText (e : Event) : Option String :=
  match extractTextE e with
  | Except.ok t => t
  | Except.error _ => none

/-- The record contributed by one event: `some` when the event yields
a text representation, `none` when the event is skipped. -/
def extractEvent (e : Event) : Option Record :=
  match extractText e with
  | some t => some ⟨eventSender e, t⟩
  | none => none

/-- The history produced from a session's event list (local.py lines
128-156). -/
def getHistory (events : List Event) : List Record :=
  events.filterMap extractEvent

/-- Exception-explicit history extraction: processes the events left
to right and aborts at the first uncaught per-event exception. -/
def getHistoryE : List Event → Except Unit (List Record)
  | [] => Except.ok []
  | e :: rest =>
    match extractTextE e with
    | Except.error u => Except.error u
    | Except.ok none => getHistoryE rest
    | Except.ok (some t) =>
      match getHistoryE rest with
      | Except.error u => Except.error u
      | Except.ok rs => Except.ok (⟨eventSender e, t⟩ :: rs)

/-- An event that lacks `content.parts[0].text` in one of the three
shapes the spec enumerates: content missing, parts empty, or first
part without a `text` attribute. -/
def lacksFirstPartText (e : Event) : Prop :=
  e.content = none ∨
  (∃ c, e.content = some c ∧ c.parts = []) ∨
  (∃ c p rest, e.content = some c ∧ c.parts = p :: rest ∧ p.text = none)

/-- The result of the history endpoint, as status plus body: `success`
is a 200 with the history list, `failure` a JSON error body with an
`error` field under the given status code. -/
inductive HistoryResult where
  | success (history : List Record)
  | failure (status : Nat) (error : String)
  deriving Repr, DecidableEq

/-- A stored session as seen by the endpoint: its event list. -/
structure Session where
  events : List Event
  deriving Repr, DecidableEq

/-- The endpoint `GET /api/sessions/{user_id}/{session_id}/history`
(local.py lines 115-163), abstracted over the outcome of
`session_service.get_session`: `Except.error` models the service
raising (caught by the outer handler, 500), `Except.ok none` a missing
session (404), `Except.ok (some s)` a found session. -/
def get_session_history (lookup : Except Unit (Option Session)) : HistoryResult :=
  match lookup with
  | Except.error _ => HistoryResult.failure 500 "Failed to get session history"
  | Except.ok none => HistoryResult.failure 404 "Session not found"
  | Except.ok (some s) => HistoryResult.success (getHistory s.events)

/-- Text extraction order exactly as the claim words it: (1) the first
content part's text attribute if present; (2) else, if the event
carries function calls, a synthesized function call string; (3) else,
if function responses exist, a synthesized function response string;
(4) otherwise nothing.  Written from the spec sentence, for comparison
with `extractText`, which is written from the code. -/
def claimOrderText (e : Event) : Option String :=
  match (e.content.bind (fun c => c.parts.head?)).bind (fun p => p.text.bind id) with
  | some t => some t
  | none =>
    match e.functionCalls with
    | n :: _ => some ("[Function Call: " ++ n ++ "]")
    | [] =>
      match e.functionResponses with
      | _ :: _ => some "[Function Response]"
      | [] => none

/-- Amended extraction policy: the fallback branches run only when the
content is present, the parts list is non-empty and reading the first
part's `text` attribute fails; an event with no content or an empty
parts list is always skipped, as is one whose first part carries a
`text` attribute holding no string. -/
def amendedOrderText (e : Event) : Option String :=
  match e.content with
  | none => none
  | some c =>
    match c.parts with
    | [] => none
    | p :: _ =>
      match p.text with
      | some t => t
      | none =>
        match e.functionCalls with
        | n :: _ => some ("[Function Call: " ++ n ++ "]")
        | [] =>
          match e.functionResponses with
          | _ :: _ => some "[Function Response]"
          | [] => none

/-- Body of the `"response"` field returned by `POST /api/chat`
(local.py line 178): Python `response or "No response from the
agent."`, where both `None` and the empty string are falsy. -/
def chatResponseBody (response : Option String) : String :=
  match response with
  | none => "No response from the agent."
  | some s => if s = "" then "No response from the agent." else s

/-- Registry of agent types (registry.py): a Python dict modelled as
an association list in insertion order with pairwise distinct keys
(the operations below preserve distinctness). -/
abbrev RegistryT (α : Type) : Type := List (String × α)

/-- Keys of the registry, in insertion order (`list(dict.keys())`). -/
def list_agent_types {α : Type} (reg : RegistryT α) : List String :=
  reg.map Prod.fst

/-- The `register_agent_type` function (registry.py lines 23-38):
raises `ValueError` when the type is already present, otherwise adds
the entry.  A Python dict assignment of a fresh key appends it at the
end of the iteration order. -/
def register_agent_type {α : Type} (reg : RegistryT α) (agent_type : String) (factory : α) :
    Except String (RegistryT α) :=
  if agent_type ∈ list_agent_types reg then
    Except.error ("Agent type " ++ agent_type ++ " is already registered.")
  else
    Except.ok (reg ++ [(agent_type, factory)])

/-- The `get_agent_factory` function (registry.py lines 41-57): raises
`ValueError` when the type is absent, otherwise returns its factory. -/
def get_agent_factory {α : Type} (reg : RegistryT α) (agent_type : String) : Except String α :=
  match reg.find? (fun entry => entry.fst = agent_type) with
  | some entry => Except.ok entry.snd
  | none => Except.error ("Agent type " ++ agent_type ++ " is not registered.")

/-- One `register_agent_type` call in a sequence, any raised error
caught and discarded; the second component collects the types whose
registration succeeded, in order. -/
def registrationStep {α : Type} (acc : RegistryT α × List String) (op : String × α) :
    RegistryT α × List String :=
  match register_agent_type acc.fst op.fst op.snd with
  | Except.ok reg => (reg, acc.snd ++ [op.fst])
  | Except.error _ => acc

/-- The final registry and the succeeded types of the whole
sequence. -/
def applyRegistrations {α : Type} (ops : List (String × α)) : RegistryT α × List String :=
  ops.foldl registrationStep (([] : RegistryT α), ([] : List String))

/-- ASCII lowercasing of one character, the fragment of Python's
`str.lower` exercised by the OSError messages compared here. -/
def pyLowerChar (c : Char) : Char :=
  if 65 ≤ c.toNat ∧ c.toNat ≤ 90 then Char.ofNat (c.toNat + 32) else c

/-- Lowercasing of a whole string, as a character list. -/
def pyLower (s : List Char) : List Char := s.map pyLowerChar

/-- Python's `needle in hay` substring test on character lists. -/
def containsSub (hay needle : List Char) : Bool :=
  match hay with
  | [] => needle.isEmpty
  | _ :: t => needle.isPrefixOf hay || containsSub t needle

/-- The address-in-use test of `run_locally` (local.py line 250):
`"address already in use" in str(e).lower() or "only one usage of
each socket address" in str(e).lower()`. -/
def addrInUseMsg (msg : String) : Bool :=
  containsSub (pyLower msg.toList) "address already in use".toList ||
  containsSub (pyLower msg.toList) "only one usage of each socket address".toList

/-- Outcome of a single `uvicorn.run` attempt on one port: the server
ran (and eventually returned), or an `OSError` with the given message
was raised. -/
inductive BindOutcome where
  | success
  | oserror (msg : String)
  deriving Repr, DecidableEq

/-- Observable outcome of `run_locally`: the server was started on a
port, or an `OSError` propagated to the caller; either carries the
`(failed port, new port)` pairs named by the warnings logged on the
way.  `fuelOut` is reached only when the supplied outcome list is
exhausted. -/
inductive RunOutcome where
  | started (port : Nat) (warnings : List (Nat × Nat))
  | raised (msg : String) (warnings : List (Nat × Nat))
  | fuelOut
  deriving Repr, DecidableEq

/-- The `run_locally` retry loop (local.py lines 241-257), abstracted
over the sequence of `uvicorn.run` outcomes for the successive ports
tried: on an address-in-use `OSError` it logs a warning naming the
failed port and `port + 1` and recurses on `port + 1`; any other
`OSError` is re-raised. -/
def run_locally (warnings : List (Nat × Nat)) : List BindOutcome → Nat → RunOutcome
  | [], _ => RunOutcome.fuelOut
  | BindOutcome.success :: _, port => RunOutcome.started port warnings
  | BindOutcome.oserror m :: rest, port =>
    if addrInUseMsg m then
      run_locally (warnings ++ [(port, port + 1)]) rest (port + 1)
    else
      RunOutcome.raised m warnings

/-- The warnings produced by `n` consecutive address-in-use failures
starting at `port`. -/
def collisionWarnings : Nat → Nat → List (Nat × Nat)
  | _, 0 => []
  | port, n + 1 => (port, port + 1) :: collisionWarnings (port + 1) n

/-- The configuration state of config.py, one field per environment
derived setting the validated code reads.  `Option String` fields
model `os.getenv` results (`none` = unset); `google_cloud_region` has
the default `"us-central1"` but may be the empty string when the
variable is set to one. -/
structure Config where
  google_api_key : Option String
  google_cloud_project : Option String
  google_cloud_region : String
  use_vertex_ai : Bool
  dev_mode : Bool
  deriving Repr, DecidableEq

/-- Python falsiness of an optional string: `None` and `""`. -/
def strFalsy (s : Option String) : Bool :=
  match s with
  | none => true
  | some v => v = ""

/-- The `validate_config` function (config.py lines 59-75): an error
message when the configuration is invalid, `none` otherwise. -/
def validate_config (c : Config) : Option String :=
  if c.use_vertex_ai then
    if strFalsy c.google_cloud_project then
      some "GOOGLE_CLOUD_PROJECT is required when using Vertex AI"
    else if c.google_cloud_region = "" then
      some "GOOGLE_CLOUD_REGION is required when using Vertex AI"
    else none
  else
    if strFalsy c.google_api_key then
      some "GOOGLE_API_KEY is required when not using Vertex AI"
    else none

/-- `DEFAULT_MODEL` of config.py line 35. -/
def DEFAULT_MODEL : String := "gemini-2.0-flash"

/-- The `_validate_model` method (base_agent.py lines 126-148): a
falsy model (Python `None` or the empty string) falls back to
`DEFAULT_MODEL`; anything else is returned unchanged. -/
def _validate_model (model : Option String) : String :=
  match model with
  | none => DEFAULT_MODEL
  | some m => if m = "" then DEFAULT_MODEL else m

/-- The attributes `BaseAgent.__init__` stores that the claims
inspect. -/
structure AgentState where
  name : String
  model : String
  app_name : String
  deriving Repr, DecidableEq

/-- The configuration gate at the top of `BaseAgent.__init__`
(base_agent.py lines 67-72): when `DEV_MODE` is not `True` the
configuration is validated and an invalid one raises `ValueError`
with the message `"Invalid configuration: " + error`. -/
def baseAgentConfigCheck (c : Config) : Except String Unit :=
  if c.dev_mode then Except.ok ()
  else
    match validate_config c with
    | some err => Except.error ("Invalid configuration: " ++ err)
    | none => Except.ok ()

/-- `BaseAgent.__init__` (base_agent.py lines 41-124) restricted to
the validated data: the configuration gate, then the stored model via
`_validate_model` and the app name defaulting to the agent name
(`app_name or name`). -/
def baseAgentInit (c : Config) (name : String) (model : Option String)
    (app_name : Option String) : Except String AgentState :=
  match baseAgentConfigCheck c with
  | Except.error e => Except.error e
  | Except.ok _ =>
    Except.ok
      { name := name
        model := _validate_model model
        app_name :=
          match app_name with
          | none => name
          | some a => if a = "" then name else a }

/-- A session store keyed by `(app_name, user_id, session_id)`, the
state owned by an `InMemorySessionService`. -/
abbrev SessionStore : Type := List ((String × String × String) × Session)

/-- `get_session` of the session service: lookup by full key. -/
def storeGetSession (st : SessionStore) (app user sid : String) : Option Session :=
  (st.find? (fun entry => entry.fst = (app, user, sid))).map Prod.snd

/-- `create_session` of the session service: inserts a fresh empty
session under the key. -/
def storeCreateSession (st : SessionStore) (app user sid : String) : SessionStore :=
  ((app, user, sid), ⟨[]⟩) :: st

/-- The create-if-missing step at the top of `BaseAgent.run`
(base_agent.py lines 279-280): `if not self.get_session(...):
self.create_session(...)`. -/
def ensureSession (st : SessionStore) (app user sid : String) : SessionStore :=
  match storeGetSession st app user sid with
  | some _ => st
  | none => storeCreateSession st app user sid

/-- `BaseAgent.run` (base_agent.py lines 265-291) as a state
transformer: the create-if-missing step, then the external runner
(`self._runner.run`), abstracted as an arbitrary transformation of
the session store. -/
def agentRun (runner : SessionStore → SessionStore) (st : SessionStore)
    (app user sid : String) : SessionStore :=
  runner (ensureSession st app user sid)

/-- One message iteration of the WebSocket endpoint (local.py lines
193-199): the endpoint's own create-if-missing step, then
`agent.run`. -/
def websocketStep (runner : SessionStore → SessionStore) (st : SessionStore)
    (app user sid : String) : SessionStore :=
  agentRun runner (ensureSession st app user sid) app user sid

/-- The per-event `try` block never lets an exception escape: its only
raise site is the guarded attribute read. -/
theorem extractTextE_eq_ok (e : Event) : extractTextE e = Except.ok (extractText e) := by
  rcases e with ⟨a, c, fc, fr⟩
  cases c with
  | none => rfl
  | some c =>
    rcases c with ⟨parts⟩
    cases parts with
    | nil => rfl
    | cons p rest =>
      rcases p with ⟨t⟩
      cases t with
      | some t => rfl
      | none => cases fc <;> cases fr <;> rfl

/-- Exception-explicit and pure history extraction agree: the loop
always returns the history. -/
theorem getHistoryE_eq_ok (events : List Event) :
    getHistoryE events = Except.ok (getHistory events) := by
  induction events with
  | nil => rfl
  | cons e rest ih =>
    have he := extractTextE_eq_ok e
    simp only [getHistoryE, he, getHistory, List.filterMap_cons]
    cases ht : extractText e with
    | none =>
      simp only [extractEvent, ht]
      exact ih
    | some t =>
      simp [extractEvent, ht, ih, getHistory]

/-- Keys of an appended entry. -/
theorem list_agent_types_append {α : Type} (reg : RegistryT α) (t : String) (f : α) :
    list_agent_types (reg ++ [(t, f)]) = list_agent_types reg ++ [t] := by
  simp [list_agent_types]

/-- The fold of `applyRegistrations` keeps the registry keys equal to
the collected succeeded types. -/
theorem registration_fold_invariant {α : Type} (ops : List (String × α)) :
    ∀ acc : RegistryT α × List String, list_agent_types acc.fst = acc.snd →
      list_agent_types (ops.foldl registrationStep acc).fst
        = (ops.foldl registrationStep acc).snd := by
  induction ops with
  | nil => intro acc h; exact h
  | cons op rest ih =>
    intro acc h
    simp only [List.foldl_cons]
    apply ih
    rcases acc with ⟨reg, succ⟩
    simp only at h
    subst h
    by_cases hmem : op.fst ∈ list_agent_types reg
    · simp [registrationStep, register_agent_type, hmem]
    · simp only [list_agent_types] at hmem
      simp [registrationStep, register_agent_type, hmem, list_agent_types]

/-- Consecutive address-in-use failures shift the port up one at a
time, accumulating one warning per collision. -/
theorem run_locally_shift (msgs : List String) :
    ∀ (ws : List (Nat × Nat)) (cont : List BindOutcome) (p : Nat),
      (∀ m ∈ msgs, addrInUseMsg m = true) →
      run_locally ws (msgs.map BindOutcome.oserror ++ cont) p
        = run_locally (ws ++ collisionWarnings p msgs.length) cont (p + msgs.length) := by
  induction msgs with
  | nil => intro ws cont p _; simp [collisionWarnings]
  | cons m rest ih =>
    intro ws cont p h
    have hm : addrInUseMsg m = true := h m (List.mem_cons_self m rest)
    simp only [List.map_cons, List.cons_append, run_locally, hm, if_true, List.append_eq]
    rw [ih (ws ++ [(p, p + 1)]) cont (p + 1) (fun x hx => h x (List.mem_cons_of_mem m hx))]
    simp only [List.length_cons, collisionWarnings, List.append_assoc, List.cons_append,
      List.nil_append]
    congr 1
    omega

/-- After the create-if-missing step the session is present. -/
theorem storeGetSession_ensureSession (st : SessionStore) (app user sid : String) :
    (storeGetSession (ensureSession st app user sid) app user sid).isSome = true := by
  unfold ensureSession
  cases h : storeGetSession st app user sid with
  | some s => simp [h]
  | none => simp [storeGetSession, storeCreateSession, List.find?]

/-- C1, counterexample.  An event with an empty `content.parts` list
that carries a function call: the extraction order stated by the claim
synthesizes `"[Function Call: do_something]"` for it, but
`get_session_history` skips the event (the fallback branches live
inside the non-empty-parts guard), so the produced history is empty. -/
theorem c1_empty_parts_counterexample :
    extractText ⟨some "agent", some ⟨[]⟩, ["do_something"], []⟩ = none ∧
    getHistory [⟨some "agent", some ⟨[]⟩, ["do_something"], []⟩] = [] ∧
    claimOrderText ⟨some "agent", some ⟨[]⟩, ["do_something"], []⟩
      = some "[Function Call: do_something]" := by
  decide

/-- C1, amended.  Per-event text extraction follows the claimed order
with the fallback branches scoped to a present content, a non-empty
parts list and a failing read of the first part's text attribute
(`amendedOrderText`); an event with no content or an empty parts list
is always skipped.  The claimed example holds: the singleton user
event with text `"Hi"` produces exactly `[{sender: "user", text:
"Hi"}]`. -/
theorem c1_extraction_order_amended (e : Event) :
    extractText e = amendedOrderText e ∧
    getHistory [⟨some "user", some ⟨[⟨some (some "Hi")⟩]⟩, [], []⟩] = [⟨"user", "Hi"⟩] := by
  constructor
  · rcases e with ⟨a, c, fc, fr⟩
    cases c with
    | none => rfl
    | some c =>
      rcases c with ⟨parts⟩
      cases parts with
      | nil => rfl
      | cons p rest =>
        rcases p with ⟨t⟩
        cases t with
        | some t => rfl
        | none => cases fc <;> cases fr <;> rfl
  · decide

/-- C2.  For an event list containing an event that lacks
`content.parts[0].text` (content missing, parts empty, or first part
without a text attribute), history extraction raises no exception to
the caller — the loop returns `Except.ok` — and each such event either
contributes a synthesized function-call/function-response placeholder
record or is omitted; the guarded attribute-access failure is absorbed
per event. -/
theorem c2_missing_text_never_raises (events : List Event) (e : Event)
    (_he : e ∈ events) (hl : lacksFirstPartText e) :
    getHistoryE events = Except.ok (getHistory events) ∧
    (extractEvent e = none ∨
      (∃ n, extractEvent e = some ⟨eventSender e, "[Function Call: " ++ n ++ "]"⟩) ∨
      extractEvent e = some ⟨eventSender e, "[Function Response]"⟩) := by
  refine ⟨getHistoryE_eq_ok events, ?_⟩
  rcases hl with hc | ⟨c, hc, hp⟩ | ⟨c, p, rest, hc, hp, ht⟩
  · left
    simp [extractEvent, extractText, extractTextE, hc]
  · left
    simp [extractEvent, extractText, extractTextE, hc, hp]
  · cases hfc : e.functionCalls with
    | cons n ns =>
      right; left
      exact ⟨n, by simp [extractEvent, extractText, extractTextE, hc, hp, ht,
        partTextAccess, hfc]⟩
    | nil =>
      cases hfr : e.functionResponses with
      | cons r rs =>
        right; right
        simp [extractEvent, extractText, extractTextE, hc, hp, ht, partTextAccess, hfc, hfr]
      | nil =>
        left
        simp [extractEvent, extractText, extractTextE, hc, hp, ht, partTextAccess, hfc, hfr]

/-- C2, witness: the singleton list whose event has no content. -/
theorem c2_missing_text_never_raises_witness :
    getHistoryE [⟨some "user", none, [], []⟩] = Except.ok (getHistory [⟨some "user", none, [], []⟩]) ∧
    (extractEvent ⟨some "user", none, [], []⟩ = none ∨
      (∃ n, extractEvent ⟨some "user", none, [], []⟩
        = some ⟨eventSender ⟨some "user", none, [], []⟩, "[Function Call: " ++ n ++ "]"⟩) ∨
      extractEvent ⟨some "user", none, [], []⟩
        = some ⟨eventSender ⟨some "user", none, [], []⟩, "[Function Response]"⟩) :=
  c2_missing_text_never_raises [⟨some "user", none, [], []⟩] ⟨some "user", none, [], []⟩
    (List.mem_singleton.mpr rfl) (Or.inl rfl)

/-- C3.  When the session service returns no session, the history
endpoint answers 404 with an `error` field and never a 200, while a
found session with no events answers 200 with an empty history — the
two cases are distinguished. -/
theorem c3_missing_session_404 :
    get_session_history (Except.ok none) = HistoryResult.failure 404 "Session not found" ∧
    (∀ h, get_session_history (Except.ok none) ≠ HistoryResult.success h) ∧
    get_session_history (Except.ok (some ⟨[]⟩)) = HistoryResult.success [] := by
  refine ⟨rfl, ?_, rfl⟩
  intro h hcontra
  exact HistoryResult.noConfusion hcontra

/-- C3, witness: the missing-session answer differs from a 200 with
empty history. -/
theorem c3_missing_session_404_witness :
    get_session_history (Except.ok none) ≠ HistoryResult.success [] :=
  c3_missing_session_404.2.1 []

/-- C4.  Every emitted record's sender is the coalesced author: it is
`"user"` exactly when the event's author is `"user"`, and `"agent"`
for every other author, including a missing (`None`) author. -/
theorem c4_sender_coalescing (e : Event) :
    (∀ r, extractEvent e = some r → r.sender = eventSender e) ∧
    (e.author = some "user" → eventSender e = "user") ∧
    (e.author ≠ some "user" → eventSender e = "agent") := by
  refine ⟨?_, ?_, ?_⟩
  · intro r hr
    unfold extractEvent at hr
    cases ht : extractText e with
    | none => rw [ht] at hr; exact absurd hr (by simp)
    | some t =>
      rw [ht] at hr
      cases hr
      rfl
  · intro ha
    simp [eventSender, ha]
  · intro ha
    unfold eventSender
    cases hb : e.author with
    | none => rfl
    | some a =>
      rw [hb] at ha
      have haa : a ≠ "user" := fun hh => ha (by rw [hh])
      by_cases h0 : a = ""
      · simp [h0]
      · simp [h0, haa]

/-- C4, witness: a tool-authored event with text is emitted with
sender `"agent"`. -/
theorem c4_sender_coalescing_witness :
    (⟨"agent", "ok"⟩ : Record).sender = eventSender ⟨some "tool", some ⟨[⟨some (some "ok")⟩]⟩, [], []⟩ ∧
    eventSender ⟨some "tool", some ⟨[⟨some (some "ok")⟩]⟩, [], []⟩ = "agent" :=
  ⟨(c4_sender_coalescing ⟨some "tool", some ⟨[⟨some (some "ok")⟩]⟩, [], []⟩).1 ⟨"agent", "ok"⟩ rfl,
   (c4_sender_coalescing ⟨some "tool", some ⟨[⟨some (some "ok")⟩]⟩, [], []⟩).2.2 (by decide)⟩

/-- C5.  `register_agent_type` succeeds exactly when the type is not
yet registered, in which case it appends the entry; `get_agent_factory`
succeeds exactly when the type is registered; and after any sequence
of registrations from the empty registry, `list_agent_types` returns
exactly the types whose registration succeeded, in order. -/
theorem c5_registry_contract {α : Type} (reg : RegistryT α) (t : String) (f : α)
    (ops : List (String × α)) :
    ((∃ r, register_agent_type reg t f = Except.ok r) ↔ t ∉ list_agent_types reg) ∧
    (t ∉ list_agent_types reg → register_agent_type reg t f = Except.ok (reg ++ [(t, f)])) ∧
    ((∃ g, get_agent_factory reg t = Except.ok g) ↔ t ∈ list_agent_types reg) ∧
    list_agent_types (applyRegistrations ops).fst = (applyRegistrations ops).snd := by
  refine ⟨?_, ?_, ?_, ?_⟩
  · constructor
    · rintro ⟨r, hr⟩ hmem
      simp [register_agent_type, hmem] at hr
    · intro hmem
      exact ⟨reg ++ [(t, f)], by simp [register_agent_type, hmem]⟩
  · intro hmem
    simp [register_agent_type, hmem]
  · constructor
    · rintro ⟨g, hg⟩
      unfold get_agent_factory at hg
      cases hf : reg.find? (fun entry => entry.fst = t) with
      | none => rw [hf] at hg; exact absurd hg (by simp)
      | some entry =>
        have hsome : (reg.find? (fun entry => entry.fst = t)).isSome = true := by
          rw [hf]; rfl
        obtain ⟨x, hx, hpx⟩ := List.find?_isSome.mp hsome
        have hfst : x.fst = t := by simpa using hpx
        exact hfst ▸ List.mem_map_of_mem Prod.fst hx
    · intro hmem
      obtain ⟨x, hx, hfst⟩ := List.mem_map.mp hmem
      have hsome : (reg.find? (fun entry => entry.fst = t)).isSome = true :=
        List.find?_isSome.mpr ⟨x, hx, by simpa using hfst⟩
      cases hf : reg.find? (fun entry => entry.fst = t) with
      | none => rw [hf] at hsome; exact absurd hsome (by simp)
      | some entry => exact ⟨entry.snd, by simp [get_agent_factory, hf]⟩
  · exact registration_fold_invariant ops (([] : RegistryT α), ([] : List String)) rfl

/-- C5, witness: registering `"base"` into the empty registry succeeds
and a doubled registration sequence lists exactly the one succeeded
type. -/
theorem c5_registry_contract_witness :
    register_agent_type ([] : RegistryT Nat) "base" 0 = Except.ok [("base", 0)] ∧
    list_agent_types (applyRegistrations [("base", 0), ("base", 1)]).fst
      = (applyRegistrations [("base", 0), ("base", 1)]).snd :=
  ⟨by simpa using (c5_registry_contract ([] : RegistryT Nat) "base" 0 []).2.1 (by decide),
   (c5_registry_contract ([] : RegistryT Nat) "base" 0 [("base", 0), ("base", 1)]).2.2.2⟩

/-- C6.  Starting at a port, any run of address-in-use failures makes
`run_locally` retry on successive ports, one warning naming the failed
port and its successor per collision, until a port binds; a bind
failure whose message is not an address-in-use message is re-raised
unchanged with only the previously accumulated warnings. -/
theorem c6_port_retry_cascade (msgs : List String) (p : Nat) (rest : List BindOutcome)
    (m : String) (hall : ∀ x ∈ msgs, addrInUseMsg x = true) (hm : addrInUseMsg m = false) :
    run_locally [] (msgs.map BindOutcome.oserror ++ BindOutcome.success :: rest) p
      = RunOutcome.started (p + msgs.length) (collisionWarnings p msgs.length) ∧
    run_locally [] (msgs.map BindOutcome.oserror ++ BindOutcome.oserror m :: rest) p
      = RunOutcome.raised m (collisionWarnings p msgs.length) := by
  constructor
  · rw [run_locally_shift msgs [] (BindOutcome.success :: rest) p hall]
    simp [run_locally]
  · rw [run_locally_shift msgs [] (BindOutcome.oserror m :: rest) p hall]
    simp [run_locally, hm]

/-- C6, witness: port 8000 occupied once, then either a successful
bind on 8001 or a permission error that propagates. -/
theorem c6_port_retry_cascade_witness :
    run_locally [] [BindOutcome.oserror "Address already in use", BindOutcome.success] 8000
      = RunOutcome.started 8001 [(8000, 8001)] ∧
    run_locally [] [BindOutcome.oserror "Address already in use",
        BindOutcome.oserror "Permission denied"] 8000
      = RunOutcome.raised "Permission denied" [(8000, 8001)] := by
  have h := c6_port_retry_cascade ["Address already in use"] 8000 []
    "Permission denied" (by decide) (by decide)
  exact ⟨h.1, h.2⟩

/-- C7, counterexample.  With `DEV_MODE` false, no API key, but Vertex
AI mode enabled and a project configured, `validate_config` checks
only the project and region, so `BaseAgent` construction succeeds:
the claim's `DEV_MODE=false ∧ no API key → ValueError` is false at
this configuration. -/
theorem c7_no_api_key_counterexample :
    (⟨none, some "my-project", "us-central1", true, false⟩ : Config).dev_mode = false ∧
    (⟨none, some "my-project", "us-central1", true, false⟩ : Config).google_api_key = none ∧
    baseAgentConfigCheck ⟨none, some "my-project", "us-central1", true, false⟩ = Except.ok () ∧
    baseAgentInit ⟨none, some "my-project", "us-central1", true, false⟩ "agent" none none
      = Except.ok ⟨"agent", "gemini-2.0-flash", "agent"⟩ :=
  ⟨rfl, rfl, rfl, rfl⟩

/-- C7, amended.  When `DEV_MODE` is true, construction always passes
the configuration gate regardless of the API key; when `DEV_MODE` is
false, Vertex AI mode is off and no API key is set, construction
raises a `ValueError` whose message mentions `GOOGLE_API_KEY`. -/
theorem c7_dev_mode_gate (c : Config) (name : String) (model app_name : Option String) :
    (c.dev_mode = true → ∃ ag, baseAgentInit c name model app_name = Except.ok ag) ∧
    (c.dev_mode = false → c.use_vertex_ai = false → strFalsy c.google_api_key = true →
      ∃ msg, baseAgentInit c name model app_name = Except.error msg ∧
        containsSub msg.toList "GOOGLE_API_KEY".toList = true) := by
  constructor
  · intro h
    refine ⟨{ name := name, model := _validate_model model,
              app_name := match app_name with
                | none => name
                | some a => if a = "" then name else a }, ?_⟩
    simp [baseAgentInit, baseAgentConfigCheck, h]
  · intro hd hv hk
    refine ⟨"Invalid configuration: GOOGLE_API_KEY is required when not using Vertex AI",
      ?_, by decide⟩
    simp [baseAgentInit, baseAgentConfigCheck, hd, validate_config, hv, hk]

/-- C7, witness: development mode with no key passes; production mode
without Vertex AI and no key fails mentioning the key variable. -/
theorem c7_dev_mode_gate_witness :
    (∃ ag, baseAgentInit ⟨none, none, "us-central1", false, true⟩ "a" none none
      = Except.ok ag) ∧
    (∃ msg, baseAgentInit ⟨none, none, "us-central1", false, false⟩ "a" none none
      = Except.error msg ∧ containsSub msg.toList "GOOGLE_API_KEY".toList = true) :=
  ⟨(c7_dev_mode_gate ⟨none, none, "us-central1", false, true⟩ "a" none none).1 rfl,
   (c7_dev_mode_gate ⟨none, none, "us-central1", false, false⟩ "a" none none).2 rfl rfl rfl⟩

/-- C8.  `BaseAgent.run` creates the session before the runner
executes when it is missing, so the session exists when the runner
starts and — for any runner that preserves existing sessions — still
exists after `run` returns; the WebSocket endpoint applies the same
create-if-missing step before each agent invocation. -/
theorem c8_run_ensures_session (runner : SessionStore → SessionStore)
    (hpres : ∀ st app user sid, (storeGetSession st app user sid).isSome = true →
      (storeGetSession (runner st) app user sid).isSome = true)
    (st : SessionStore) (app user sid : String) :
    (storeGetSession (ensureSession st app user sid) app user sid).isSome = true ∧
    (storeGetSession (agentRun runner st app user sid) app user sid).isSome = true ∧
    (storeGetSession (websocketStep runner st app user sid) app user sid).isSome = true := by
  refine ⟨storeGetSession_ensureSession st app user sid, ?_, ?_⟩
  · exact hpres _ _ _ _ (storeGetSession_ensureSession st app user sid)
  · exact hpres _ _ _ _ (storeGetSession_ensureSession (ensureSession st app user sid) app user sid)

/-- C8, witness: the identity runner on the empty store. -/
theorem c8_run_ensures_session_witness :
    (storeGetSession (ensureSession [] "app" "u" "s") "app" "u" "s").isSome = true ∧
    (storeGetSession (agentRun id [] "app" "u" "s") "app" "u" "s").isSome = true ∧
    (storeGetSession (websocketStep id [] "app" "u" "s") "app" "u" "s").isSome = true :=
  c8_run_ensures_session id (fun _ _ _ _ h => h) [] "app" "u" "s"

/-- C9.  The `"response"` field of `POST /api/chat` is always a
non-empty string: a `None` or empty agent response is replaced by the
literal `"No response from the agent."`, and any other response is
passed through unchanged. -/
theorem c9_chat_response_nonempty (response : Option String) :
    0 < (chatResponseBody response).length ∧
    chatResponseBody none = "No response from the agent." ∧
    chatResponseBody (some "") = "No response from the agent." ∧
    (∀ s, chatResponseBody (some s)
      = if s = "" then "No response from the agent." else s) := by
  refine ⟨?_, rfl, rfl, fun s => rfl⟩
  cases response with
  | none => decide
  | some s =>
    by_cases hs : s = ""
    · subst hs; decide
    · simp only [chatResponseBody, hs, if_neg]
      rcases s with ⟨data⟩
      cases data with
      | nil => exact absurd rfl hs
      | cons c cs => simp [String.length]

/-- C10.  The model stored by `BaseAgent.__init__` is the default
`"gemini-2.0-flash"` whenever the model argument is falsy (`None` or
the empty string) and the argument itself otherwise. -/
theorem c10_stored_model_default (c : Config) (name : String) (app_name : Option String) :
    _validate_model none = "gemini-2.0-flash" ∧
    _validate_model (some "") = "gemini-2.0-flash" ∧
    (∀ s, _validate_model (some s) = if s = "" then DEFAULT_MODEL else s) ∧
    (∀ model ag, baseAgentInit c name model app_name = Except.ok ag →
      ag.model = _validate_model model) := by
  refine ⟨rfl, rfl, fun s => rfl, ?_⟩
  intro model ag hag
  unfold baseAgentInit at hag
  cases hc : baseAgentConfigCheck c with
  | error e => rw [hc] at hag; exact absurd hag (by simp)
  | ok u =>
    rw [hc] at hag
    cases hag
    rfl

/-- C10, witness: construction in development mode with a `None`
model stores the default model. -/
theorem c10_stored_model_default_witness :
    baseAgentInit ⟨none, none, "us-central1", false, true⟩ "a" none none
      = Except.ok ⟨"a", "gemini-2.0-flash", "a"⟩ ∧
    (⟨"a", "gemini-2.0-flash", "a"⟩ : AgentState).model = _validate_model none :=
  ⟨rfl, (c10_stored_model_default ⟨none, none, "us-central1", false, true⟩ "a" none).2.2.2
    none ⟨"a", "gemini-2.0-flash", "a"⟩ rfl⟩

end ADK
